import Mathlib

/-!
# Verification of the gallery-manifest builder (`build_gallery.py`)

A shallow embedding of the algorithmic core of
`src/zenryukyo/tools/build_gallery.py`: the per-format image dimension
parsers (`read_image_size`), the dimension resolver
(`get_image_dimensions`), the manifest builder (`build_gallery_items`)
and the serialization of items (`GalleryItem.to_dict`).

File contents are embedded as `List Nat` (one element per byte); file
system state and the optional Pillow collaborator are passed in
explicitly as functions; Python exceptions become `Except` values whose
constructors correspond one-to-one to the distinct `ValueError`
messages that the source raises.
-/

namespace BuildGallery

/-- The distinct failure values of the source.  Each constructor
corresponds to one of the `ValueError` messages raised inside
`read_image_size`.  These are the only failures the code can produce. -/
inductive ImgError where
  | notJpeg            -- "Not a JPEG file"
  | jpegDimsNotFound   -- "Could not determine JPEG dimensions"
  | notPng             -- "Not a PNG file"
  | notWebp            -- "Not a WebP file"
  | webpDimsNotFound   -- "Could not determine WebP dimensions"
  | unsupported (sfx : String)  -- "Unsupported format: ..."
  deriving DecidableEq

/-- `int.from_bytes(l, 'big')`. -/
def beVal (l : List Nat) : Nat := l.foldl (fun acc b => acc * 256 + b) 0

/-- `int.from_bytes(l, 'little')`. -/
def leVal (l : List Nat) : Nat := l.foldr (fun b acc => acc * 256 + b) 0

/-- `JPEG_SOI = bytes.fromhex('FFD8')`. -/
def JPEG_SOI : List Nat := [0xFF, 0xD8]

/-- `JPEG_START_OF_FRAME_MARKERS` from the source. -/
def JPEG_START_OF_FRAME_MARKERS : List Nat :=
  [0xC0, 0xC1, 0xC2, 0xC3, 0xC5, 0xC6, 0xC7, 0xC9, 0xCA, 0xCB, 0xCD, 0xCE, 0xCF]

/-- `PNG_SIGNATURE = bytes.fromhex('89504E470D0A1A0A')`. -/
def PNG_SIGNATURE : List Nat := [0x89, 0x50, 0x4E, 0x47, 0x0D, 0x0A, 0x1A, 0x0A]

/-- The JPEG marker-scanning loop of `read_image_size` (lines 140-165).
`inMarker = false`: the loop is looking for a `0xFF` byte
(`marker_prefix`); any other byte is skipped (`continue`).
`inMarker = true`: a `0xFF` has been consumed and the inner
`while marker == 0xFF` loop is skipping padding; the first non-`0xFF`
byte is the marker code.  For a start-of-frame code the two length
bytes must be present (`break` otherwise), then one precision byte is
skipped, two big-endian height bytes and two big-endian width bytes
are read (short reads allowed, as with Python's `fp.read`), and
`(width, height)` is returned.  For any other code the two length
bytes are read and `max(length - 2, 0)` bytes are skipped (`Nat`
subtraction is already truncated).  Falling off the end of the data
models the `break`/loop-exhaustion paths, all of which raise
`ValueError('Could not determine JPEG dimensions')`. -/
def jpegRun : Nat → Bool → List Nat → Except ImgError (Nat × Nat)
  | _, _, [] => .error .jpegDimsNotFound
  | 0, _, _ :: _ => .error .jpegDimsNotFound
  | fuel + 1, false, b :: rest =>
    if b = 0xFF then jpegRun fuel true rest else jpegRun fuel false rest
  | fuel + 1, true, b :: rest =>
    if b = 0xFF then jpegRun fuel true rest
    else if JPEG_START_OF_FRAME_MARKERS.contains b then
      match rest with
      | _l1 :: _l2 :: seg =>
        .ok (beVal ((seg.drop 3).take 2), beVal ((seg.drop 1).take 2))
      | _ => .error .jpegDimsNotFound
    else
      match rest with
      | l1 :: l2 :: seg => jpegRun fuel false (seg.drop (beVal [l1, l2] - 2))
      | _ => .error .jpegDimsNotFound

/-- The JPEG scanning loop, entered with fuel equal to the length of the
remaining data.  Every iteration of the loop consumes at least one byte,
so this much fuel can never run out (`jpegRun_fuel` below proves the
fuel value irrelevant); the fuel only makes the recursion structural. -/
def jpegScanStep (inMarker : Bool) (data : List Nat) : Except ImgError (Nat × Nat) :=
  jpegRun data.length inMarker data

/-- The scanner state right after a `0xFF` byte was consumed: the point
at which the parser reads (and dispatches on) a marker code. -/
abbrev jpegAfterFF : List Nat → Except ImgError (Nat × Nat) := jpegScanStep true

/-- Chunk tag `b'VP8X'`. -/
def VP8X_TAG : List Nat := [0x56, 0x50, 0x38, 0x58]

/-- Chunk tag `b'VP8 '` (note the trailing space byte `0x20`). -/
def VP8_TAG : List Nat := [0x56, 0x50, 0x38, 0x20]

/-- Chunk tag `b'VP8L'`. -/
def VP8L_TAG : List Nat := [0x56, 0x50, 0x38, 0x4C]

/-- Container tag `b'RIFF'`. -/
def RIFF_TAG : List Nat := [0x52, 0x49, 0x46, 0x46]

/-- Container tag `b'WEBP'`. -/
def WEBP_TAG : List Nat := [0x57, 0x45, 0x42, 0x50]

/-- The WebP chunk loop of `read_image_size` (lines 180-199), applied to
the bytes following the 12-byte RIFF/WEBP header.  Each iteration reads
an 8-byte chunk header (fewer than 8 available bytes means `break`,
which raises `ValueError('Could not determine WebP dimensions')`), a
4-byte little-endian size, then `size + size % 2` payload bytes -- a
short read when the declared size overruns the stream, exactly like
Python's `fp.read`.  The three recognized tags return dimensions when
the bytes actually read meet the tag's length guard; any other chunk is
skipped. -/
def webpRun : Nat → List Nat → Except ImgError (Nat × Nat)
  | fuel + 1, c1 :: c2 :: c3 :: c4 :: s1 :: s2 :: s3 :: s4 :: rest =>
    let chunk_type := [c1, c2, c3, c4]
    let chunk_size := leVal [s1, s2, s3, s4]
    let chunk_data := rest.take (chunk_size + chunk_size % 2)
    if chunk_type = VP8X_TAG ∧ 10 ≤ chunk_data.length then
      .ok (1 + leVal ((chunk_data.drop 4).take 3),
           1 + leVal ((chunk_data.drop 7).take 3))
    else if chunk_type = VP8_TAG ∧ 10 ≤ chunk_data.length then
      .ok (chunk_data.getD 6 0 ||| (chunk_data.getD 7 0 <<< 8),
           chunk_data.getD 8 0 ||| (chunk_data.getD 9 0 <<< 8))
    else if chunk_type = VP8L_TAG ∧ 5 ≤ chunk_data.length then
      let bits := leVal (chunk_data.take 4)
      .ok ((bits &&& 0x3FFF) + 1, ((bits >>> 14) &&& 0x3FFF) + 1)
    else
      webpRun fuel (rest.drop (chunk_size + chunk_size % 2))
  | _, _ => .error .webpDimsNotFound

/-- The WebP chunk loop, entered with fuel equal to the length of the
remaining data.  Every iteration consumes at least eight bytes, so this
much fuel can never run out (`webpRun_fuel` below proves the fuel value
irrelevant); the fuel only makes the recursion structural. -/
def webpScan (data : List Nat) : Except ImgError (Nat × Nat) :=
  webpRun data.length data

/-- ASCII lowering of one character; models Python's `str.lower` on the
ASCII range (the only characters occurring in the handled suffixes). -/
def lowerChar (c : Char) : Char :=
  if 'A' ≤ c ∧ c ≤ 'Z' then Char.ofNat (c.toNat + 32) else c

/-- `s.lower()` (ASCII). -/
def lowerStr (s : String) : String := String.mk (s.data.map lowerChar)

/-- `pathlib.PurePath.suffix` for a file name: the substring from the
last `'.'` onward, provided that dot is neither the first nor the last
character of the name; otherwise the empty string. -/
def fileSuffix (name : String) : String :=
  let cs := name.data
  match ((cs.enum.filter (fun p => p.2 = '.')).map (fun p => p.1)).getLast? with
  | none => ""
  | some i => if 0 < i ∧ i + 1 < cs.length then String.mk (cs.drop i) else ""

/-- `pathlib.PurePath.stem`: the name with its suffix removed. -/
def fileStem (name : String) : String :=
  String.mk (name.data.take (name.data.length - (fileSuffix name).data.length))

/-- `describe_alt` (lines 116-118): the stem with `'_'` and `'-'`
replaced by spaces. -/
def describe_alt (name : String) : String :=
  String.mk ((fileStem name).data.map (fun c => if c = '_' ∨ c = '-' then ' ' else c))

/-- `read_image_size` (lines 134-201), as a function of the file's name
(only its suffix matters) and its content bytes. -/
def read_image_size (name : String) (data : List Nat) : Except ImgError (Nat × Nat) :=
  let sfx := lowerStr (fileSuffix name)
  if sfx = ".jpg" ∨ sfx = ".jpeg" then
    if data.take 2 = JPEG_SOI then jpegScanStep false (data.drop 2)
    else .error .notJpeg
  else if sfx = ".png" then
    let header := data.take 24
    if header.take 8 = PNG_SIGNATURE then
      .ok (beVal ((header.drop 16).take 4), beVal ((header.drop 20).take 4))
    else .error .notPng
  else if sfx = ".webp" then
    let header := data.take 12
    if header.take 4 = RIFF_TAG ∧ header.drop 8 = WEBP_TAG then
      webpScan (data.drop 12)
    else .error .notWebp
  else .error (.unsupported sfx)

/-- `get_image_dimensions` (lines 206-213).  The optional Pillow
collaborator (`Image`) is modelled as an optional function from the
file's bytes to dimensions; `none` as its result models any exception
it raises, upon which the code falls back to `read_image_size`.  When
`Image` is absent (`none` here, `Image = None` in the source) the
manual parser is called directly. -/
def get_image_dimensions (image : Option (List Nat → Option (Nat × Nat)))
    (name : String) (data : List Nat) : Except ImgError (Nat × Nat) :=
  match image with
  | some dec =>
    match dec data with
    | some wh => .ok wh
    | none => read_image_size name data
  | none => read_image_size name data

/-- One entry of `photos_dir.iterdir()`: its file name, its content
bytes, and whether it is a regular file (`path.is_file()`). -/
structure DirEntry where
  name : String
  content : List Nat
  isFile : Bool
  deriving DecidableEq

/-- The environment of one `build_gallery_items` run: the optional
Pillow module, the `--skip-thumbs` flag, the external
`generate_thumbnail` collaborator (returning the thumbnail's output
dimensions, or `none` for the `Image is None`/exception paths that
return `None` in the source), and the pre-existing contents of the
`photos/thumbs` directory (`thumb_path.exists()` plus the bytes that
`get_image_dimensions` would then read). -/
structure Config where
  image : Option (List Nat → Option (Nat × Nat))
  skip_thumbs : Bool
  gen_thumbnail : String → Option (Nat × Nat)
  thumbs_on_disk : String → Option (List Nat)

/-- The `GalleryItem` dataclass (lines 24-33). -/
structure GalleryItem where
  src : String
  w : Nat
  h : Nat
  alt : String
  thumb : Option String
  thumbWidth : Option Nat
  thumbHeight : Option Nat
  caption : Option String
  deriving DecidableEq

/-- The thumbnail-resolution steps of the loop body of
`build_gallery_items` (lines 243-257): the
`(thumb_rel, thumb_width, thumb_height)` triple after the generation
attempt and the reuse-existing-thumbnail fallback.  Generation is
attempted only when Pillow is present and `--skip-thumbs` is not set;
when it does not yield a thumbnail but `thumbs/<name>` already exists,
that file is reused and its dimensions are resolved through
`get_image_dimensions`, with any failure swallowed into `None`
dimensions (lines 254-257) while the relative path stays set. -/
def resolveThumb (cfg : Config) (e : DirEntry) : Option String × Option Nat × Option Nat :=
  match (if cfg.image.isSome && !cfg.skip_thumbs then cfg.gen_thumbnail e.name else none) with
  | some (tw, th) => (some ("photos/thumbs/" ++ e.name), some tw, some th)
  | none =>
    match cfg.thumbs_on_disk e.name with
    | none => (none, none, none)
    | some tdata =>
      match get_image_dimensions cfg.image e.name tdata with
      | .ok (tw, th) => (some ("photos/thumbs/" ++ e.name), some tw, some th)
      | .error _ => (some ("photos/thumbs/" ++ e.name), none, none)

/-- The loop body of `build_gallery_items` for one entry (lines
240-268): resolve the original's dimensions (an uncaught failure here
propagates out of the whole build), derive the alt text, resolve the
thumbnail triple, and construct the item.  `src` is
`photo.relative_to(photos_dir.parent).as_posix()`, i.e.
`photos/<name>`; `caption` is always set to the alt text. -/
def buildItem (cfg : Config) (e : DirEntry) : Except ImgError GalleryItem :=
  match get_image_dimensions cfg.image e.name e.content with
  | .error er => .error er
  | .ok wh =>
    let alt_text := describe_alt e.name
    let t := resolveThumb cfg e
    .ok { src := "photos/" ++ e.name, w := wh.1, h := wh.2, alt := alt_text,
          thumb := t.1, thumbWidth := t.2.1, thumbHeight := t.2.2,
          caption := some alt_text }

/-- `SUPPORTED_EXTENSIONS` (line 16). -/
def SUPPORTED_EXTENSIONS : List String := [".jpg", ".jpeg", ".png", ".webp"]

/-- The filters of the loop of `build_gallery_items` (lines 234-239):
keep regular files with a supported (case-insensitively matched)
extension.  (The `photo.parent == thumbs_dir` check of line 234 can
never trigger for direct children of `photos_dir` and the `thumbs`
subdirectory itself is excluded by `is_file`.) -/
def keepEntry (e : DirEntry) : Bool :=
  e.isFile && SUPPORTED_EXTENSIONS.contains (lowerStr (fileSuffix e.name))

/-- The `for photo in sorted(photos_dir.iterdir())` loop of
`build_gallery_items` (lines 233-268) over an already-sorted listing:
skipped entries contribute nothing, and an exception from the loop body
aborts the whole build (there is no per-file exception handling around
`get_image_dimensions`). -/
def build_items_loop (cfg : Config) : List DirEntry → Except ImgError (List GalleryItem)
  | [] => .ok []
  | e :: rest =>
    if keepEntry e then
      match buildItem cfg e with
      | .error er => .error er
      | .ok it =>
        match build_items_loop cfg rest with
        | .error er => .error er
        | .ok its => .ok (it :: its)
    else
      build_items_loop cfg rest

/-- Lexicographic comparison of two strings by Unicode code point,
modelling Python's `<=` on the path strings that `sorted` compares. -/
def chLe : List Char → List Char → Bool
  | [], _ => true
  | _ :: _, [] => false
  | a :: as, b :: bs =>
    if a.toNat < b.toNat then true
    else if b.toNat < a.toNat then false
    else chLe as bs

/-- String order used for `sorted(photos_dir.iterdir())`. -/
def strLeb (a b : String) : Bool := chLe a.data b.data

/-- The sort order of directory entries: by name (for direct children
of one directory, Python's `Path` ordering is the name ordering). -/
abbrev entryLe (a b : DirEntry) : Prop := strLeb a.name b.name = true

/-- `build_gallery_items` (lines 231-269): sort the directory listing,
then run the per-file loop. -/
def build_gallery_items (cfg : Config) (entries : List DirEntry) :
    Except ImgError (List GalleryItem) :=
  build_items_loop cfg (entries.insertionSort entryLe)

/-- Python truthiness of an `Optional[str]` (`None` and `''` falsy). -/
def truthyStr (o : Option String) : Bool :=
  match o with
  | none => false
  | some s => !(s == "")

/-- Python truthiness of an `Optional[int]` (`None` and `0` falsy). -/
def truthyNat (o : Option Nat) : Bool :=
  match o with
  | none => false
  | some n => !(n == 0)

/-- A JSON scalar as emitted by `to_dict`. -/
inductive JsonValue where
  | str (s : String)
  | num (n : Nat)
  deriving DecidableEq

/-- `GalleryItem.to_dict` (lines 35-49) as an ordered key/value list:
`src`, `w`, `h`, `alt` always; `thumb` if truthy; `thumbWidth` and
`thumbHeight` together if both truthy; `caption` if truthy. -/
def to_dict (it : GalleryItem) : List (String × JsonValue) :=
  [("src", JsonValue.str it.src), ("w", JsonValue.num it.w),
   ("h", JsonValue.num it.h), ("alt", JsonValue.str it.alt)]
  ++ (if truthyStr it.thumb then [("thumb", JsonValue.str (it.thumb.getD ""))] else [])
  ++ (if truthyNat it.thumbWidth && truthyNat it.thumbHeight then
        [("thumbWidth", JsonValue.num (it.thumbWidth.getD 0)),
         ("thumbHeight", JsonValue.num (it.thumbHeight.getD 0))]
      else [])
  ++ (if truthyStr it.caption then [("caption", JsonValue.str (it.caption.getD ""))] else [])

/-- Whether a serialized dict carries a given key. -/
def dictHasKey (d : List (String × JsonValue)) (k : String) : Bool :=
  d.any (fun p => p.1 == k)

/-! ### Concrete fixtures used by witnesses and counterexamples -/

/-- Fixture: the build environment with Pillow absent, thumbnail
generation skipped and an empty `photos/thumbs` directory. -/
def cfgNoPillow : Config :=
  { image := none, skip_thumbs := true, gen_thumbnail := fun _ => none,
    thumbs_on_disk := fun _ => none }

/-- Fixture: like `cfgNoPillow`, but a stale unreadable
`photos/thumbs/a.png` (a single zero byte) is already on disk. -/
def cfgStaleThumb : Config :=
  { image := none, skip_thumbs := true, gen_thumbnail := fun _ => none,
    thumbs_on_disk := fun n => if n == "a.png" then some [0x00] else none }

/-- Fixture: a valid 24-byte PNG header, 100 by 50. -/
def pngBytes100x50 : List Nat :=
  [0x89, 0x50, 0x4E, 0x47, 0x0D, 0x0A, 0x1A, 0x0A,
   0x00, 0x00, 0x00, 0x0D, 0x49, 0x48, 0x44, 0x52,
   0x00, 0x00, 0x00, 0x64, 0x00, 0x00, 0x00, 0x32]

/-- Fixture: a PNG truncated to 20 bytes: the full signature, a
plausible IHDR chunk header, the width bytes `00 00 00 07` — and then
nothing where the height bytes should be. -/
def pngBytesTruncated20 : List Nat :=
  [0x89, 0x50, 0x4E, 0x47, 0x0D, 0x0A, 0x1A, 0x0A,
   0x00, 0x00, 0x00, 0x0D, 0x49, 0x48, 0x44, 0x52,
   0x00, 0x00, 0x00, 0x07]

/-- Fixture: a minimal JPEG (SOI, then a baseline SOF0 segment),
200 by 100. -/
def jpegBytes200x100 : List Nat :=
  [0xFF, 0xD8, 0xFF, 0xC0, 0x00, 0x11, 0x08, 0x00, 0x64, 0x00, 0xC8]

/-- Fixture: the item built for the truncated `a.png` under
`cfgStaleThumb`: a zero height, and a thumb path without dimensions. -/
def itemTruncatedPng : GalleryItem :=
  { src := "photos/a.png", w := 7, h := 0, alt := "a",
    thumb := some "photos/thumbs/a.png", thumbWidth := none,
    thumbHeight := none, caption := some "a" }

/-- Fixture: the item built for `b.png` (100 by 50) under
`cfgNoPillow`. -/
def itemBPng : GalleryItem :=
  { src := "photos/b.png", w := 100, h := 50, alt := "b",
    thumb := none, thumbWidth := none, thumbHeight := none,
    caption := some "b" }

/-- Fixture: the item built for `a.jpg` (200 by 100) under
`cfgNoPillow`. -/
def itemAJpg : GalleryItem :=
  { src := "photos/a.jpg", w := 200, h := 100, alt := "a",
    thumb := none, thumbWidth := none, thumbHeight := none,
    caption := some "a" }

/-- Fixture: the item built for `sunset_bay.png` (100 by 50) under
`cfgNoPillow`. -/
def itemSunsetBay : GalleryItem :=
  { src := "photos/sunset_bay.png", w := 100, h := 50, alt := "sunset bay",
    thumb := none, thumbWidth := none, thumbHeight := none,
    caption := some "sunset bay" }

/-! ## Fuel irrelevance

The two scanning loops are written with a structural fuel argument set
to the length of the scanned data.  The following lemmas show that any
sufficient fuel gives the same result, so the fuel is an artifact of
the encoding and not part of the modelled semantics. -/

theorem jpegRun_fuel : ∀ f1 f2 (mk : Bool) (data : List Nat),
    data.length ≤ f1 → data.length ≤ f2 → jpegRun f1 mk data = jpegRun f2 mk data := by
  intro f1
  induction f1 with
  | zero =>
    intro f2 mk data hl1 _
    have hd : data = [] := List.length_eq_zero.mp (Nat.le_zero.mp hl1)
    subst hd
    cases f2 <;> cases mk <;> rfl
  | succ f1 ih =>
    intro f2 mk data hl1 hl2
    cases data with
    | nil => cases f2 <;> cases mk <;> rfl
    | cons b rest =>
      simp only [List.length_cons] at hl1 hl2
      cases f2 with
      | zero => omega
      | succ f2 =>
        cases mk with
        | false =>
          simp only [jpegRun]
          by_cases hb : b = 0xFF
          · rw [if_pos hb, if_pos hb]
            exact ih f2 true rest (by omega) (by omega)
          · rw [if_neg hb, if_neg hb]
            exact ih f2 false rest (by omega) (by omega)
        | true =>
          simp only [jpegRun]
          by_cases hb : b = 0xFF
          · rw [if_pos hb, if_pos hb]
            exact ih f2 true rest (by omega) (by omega)
          · rw [if_neg hb, if_neg hb]
            by_cases hc : JPEG_START_OF_FRAME_MARKERS.contains b
            · rw [if_pos hc, if_pos hc]
            · rw [if_neg hc, if_neg hc]
              cases rest with
              | nil => rfl
              | cons l1 rest1 =>
                cases rest1 with
                | nil => rfl
                | cons l2 seg =>
                  simp only [List.length_cons] at hl1 hl2
                  exact ih f2 false _
                    (by simp only [List.length_drop]; omega)
                    (by simp only [List.length_drop]; omega)

theorem webpRun_fuel : ∀ f1 f2 (data : List Nat),
    data.length ≤ f1 → data.length ≤ f2 → webpRun f1 data = webpRun f2 data := by
  intro f1
  induction f1 with
  | zero =>
    intro f2 data hl1 _
    have hd : data = [] := List.length_eq_zero.mp (Nat.le_zero.mp hl1)
    subst hd
    cases f2 <;> rfl
  | succ f1 ih =>
    intro f2 data hl1 hl2
    rcases data with _ | ⟨c1, _ | ⟨c2, _ | ⟨c3, _ | ⟨c4, _ | ⟨s1, _ | ⟨s2, _ | ⟨s3, _ | ⟨s4, rest⟩⟩⟩⟩⟩⟩⟩⟩
    · cases f2 <;> rfl
    · simp only [List.length_cons] at hl2; cases f2 with | zero => omega | succ _ => rfl
    · simp only [List.length_cons] at hl2; cases f2 with | zero => omega | succ _ => rfl
    · simp only [List.length_cons] at hl2; cases f2 with | zero => omega | succ _ => rfl
    · simp only [List.length_cons] at hl2; cases f2 with | zero => omega | succ _ => rfl
    · simp only [List.length_cons] at hl2; cases f2 with | zero => omega | succ _ => rfl
    · simp only [List.length_cons] at hl2; cases f2 with | zero => omega | succ _ => rfl
    · simp only [List.length_cons] at hl2; cases f2 with | zero => omega | succ _ => rfl
    · simp only [List.length_cons] at hl1 hl2
      cases f2 with
      | zero => omega
      | succ f2 =>
        simp only [webpRun]
        split_ifs
        · rfl
        · rfl
        · rfl
        · exact ih f2 _ (by simp only [List.length_drop]; omega)
            (by simp only [List.length_drop]; omega)

/-! ## Helper lemmas about the WebP chunk loop -/

theorem webpRun_error : ∀ (fuel : Nat) (data : List Nat) (e : ImgError),
    webpRun fuel data = .error e → e = ImgError.webpDimsNotFound := by
  intro fuel
  induction fuel with
  | zero =>
    intro data e h
    rcases data with _ | ⟨c1, _ | ⟨c2, _ | ⟨c3, _ | ⟨c4, _ | ⟨s1, _ | ⟨s2, _ | ⟨s3, _ | ⟨s4, rest⟩⟩⟩⟩⟩⟩⟩⟩ <;>
      (injection h with h; exact h.symm)
  | succ fuel ih =>
    intro data e h
    rcases data with _ | ⟨c1, _ | ⟨c2, _ | ⟨c3, _ | ⟨c4, _ | ⟨s1, _ | ⟨s2, _ | ⟨s3, _ | ⟨s4, rest⟩⟩⟩⟩⟩⟩⟩⟩
    case nil => injection h with h; exact h.symm
    case cons.nil => injection h with h; exact h.symm
    case cons.cons.nil => injection h with h; exact h.symm
    case cons.cons.cons.nil => injection h with h; exact h.symm
    case cons.cons.cons.cons.nil => injection h with h; exact h.symm
    case cons.cons.cons.cons.cons.nil => injection h with h; exact h.symm
    case cons.cons.cons.cons.cons.cons.nil => injection h with h; exact h.symm
    case cons.cons.cons.cons.cons.cons.cons.nil => injection h with h; exact h.symm
    case cons.cons.cons.cons.cons.cons.cons.cons =>
      simp only [webpRun] at h
      split_ifs at h
      all_goals first
      | exact Except.noConfusion h
      | exact ih _ e h

/-! ## Helper lemmas about the manifest builder -/

theorem chLe_total : ∀ a b : List Char, chLe a b = true ∨ chLe b a = true := by
  intro a
  induction a with
  | nil => intro b; left; rfl
  | cons x xs ih =>
    intro b
    cases b with
    | nil => right; rfl
    | cons y ys =>
      rcases Nat.lt_trichotomy x.toNat y.toNat with hxy | hxy | hxy
      · left; simp [chLe, hxy]
      · rcases ih ys with h | h
        · left; simp [chLe, hxy, h]
        · right; simp [chLe, hxy.symm, h]
      · right; simp [chLe, hxy]

theorem chLe_trans : ∀ a b c : List Char,
    chLe a b = true → chLe b c = true → chLe a c = true := by
  intro a
  induction a with
  | nil => intro b c _ _; rfl
  | cons x xs ih =>
    intro b c hab hbc
    cases b with
    | nil => simp [chLe] at hab
    | cons y ys =>
      cases c with
      | nil => simp [chLe] at hbc
      | cons z zs =>
        simp only [chLe] at hab hbc ⊢
        rcases Nat.lt_trichotomy x.toNat y.toNat with hxy | hxy | hxy
        · rcases Nat.lt_trichotomy y.toNat z.toNat with hyz | hyz | hyz
          · simp [show x.toNat < z.toNat by omega]
          · simp [show x.toNat < z.toNat by omega]
          · simp [show ¬ y.toNat < z.toNat by omega, hyz] at hbc
        · rcases Nat.lt_trichotomy y.toNat z.toNat with hyz | hyz | hyz
          · simp [show x.toNat < z.toNat by omega]
          · simp only [show ¬ x.toNat < y.toNat by omega,
              show ¬ y.toNat < x.toNat by omega, if_neg, ite_false, if_false] at hab
            simp only [show ¬ y.toNat < z.toNat by omega,
              show ¬ z.toNat < y.toNat by omega, if_neg, ite_false, if_false] at hbc
            simp only [show ¬ x.toNat < z.toNat by omega,
              show ¬ z.toNat < x.toNat by omega, if_neg, ite_false, if_false]
            exact ih ys zs hab hbc
          · simp [show ¬ y.toNat < z.toNat by omega, hyz] at hbc
        · simp [show ¬ x.toNat < y.toNat by omega, hxy] at hab

theorem thumb_rel_ne_empty (s : String) : (("photos/thumbs/" ++ s) == "") = false := by
  obtain ⟨l⟩ := s
  rfl

theorem resolveThumb_shape (cfg : Config) (e : DirEntry) :
    resolveThumb cfg e = (none, none, none)
    ∨ (∃ tw th, resolveThumb cfg e = (some ("photos/thumbs/" ++ e.name), some tw, some th))
    ∨ resolveThumb cfg e = (some ("photos/thumbs/" ++ e.name), none, none) := by
  unfold resolveThumb
  split
  · next tw th _ => exact Or.inr (Or.inl ⟨tw, th, rfl⟩)
  · split
    · exact Or.inl rfl
    · split
      · exact Or.inr (Or.inl ⟨_, _, rfl⟩)
      · exact Or.inr (Or.inr rfl)

theorem buildItem_ok (cfg : Config) (e : DirEntry) (it : GalleryItem)
    (h : buildItem cfg e = .ok it) :
    it.src = "photos/" ++ e.name
    ∧ it.alt = describe_alt e.name
    ∧ it.caption = some it.alt
    ∧ (it.thumb, it.thumbWidth, it.thumbHeight) = resolveThumb cfg e := by
  unfold buildItem at h
  split at h
  · exact Except.noConfusion h
  · injection h with h
    subst h
    exact ⟨rfl, rfl, rfl, rfl⟩

theorem loop_mem (cfg : Config) : ∀ (l : List DirEntry) (items : List GalleryItem),
    build_items_loop cfg l = .ok items →
    ∀ it ∈ items, ∃ e, buildItem cfg e = .ok it := by
  intro l
  induction l with
  | nil =>
    intro items h it hit
    simp only [build_items_loop] at h
    injection h with h
    subst h
    exact absurd hit (List.not_mem_nil it)
  | cons e rest ih =>
    intro items h it hit
    simp only [build_items_loop] at h
    by_cases hk : keepEntry e = true
    · rw [if_pos hk] at h
      cases hbe : buildItem cfg e with
      | error er => rw [hbe] at h; exact Except.noConfusion h
      | ok it1 =>
        rw [hbe] at h
        cases hbr : build_items_loop cfg rest with
        | error er => rw [hbr] at h; exact Except.noConfusion h
        | ok its =>
          rw [hbr] at h
          injection h with h
          subst h
          rcases List.mem_cons.mp hit with h1 | h1
          · subst h1; exact ⟨e, hbe⟩
          · exact ih its hbr it h1
    · rw [if_neg hk] at h
      exact ih items h it hit

theorem loop_srcs (cfg : Config) : ∀ (l : List DirEntry) (items : List GalleryItem),
    build_items_loop cfg l = .ok items →
    items.map GalleryItem.src = (l.filter keepEntry).map (fun e => "photos/" ++ e.name) := by
  intro l
  induction l with
  | nil =>
    intro items h
    simp only [build_items_loop] at h
    injection h with h
    subst h
    rfl
  | cons e rest ih =>
    intro items h
    simp only [build_items_loop] at h
    by_cases hk : keepEntry e = true
    · rw [if_pos hk] at h
      cases hbe : buildItem cfg e with
      | error er => rw [hbe] at h; exact Except.noConfusion h
      | ok it1 =>
        rw [hbe] at h
        cases hbr : build_items_loop cfg rest with
        | error er => rw [hbr] at h; exact Except.noConfusion h
        | ok its =>
          rw [hbr] at h
          injection h with h
          subst h
          simp only [List.map_cons, List.filter_cons, hk, if_pos]
          rw [ih its hbr, (buildItem_ok cfg e it1 hbe).1]
    · rw [if_neg hk] at h
      simp only [List.filter_cons, hk]
      exact ih items h

theorem loop_err (cfg : Config) : ∀ (l : List DirEntry) (e : DirEntry),
    e ∈ l → keepEntry e = true → (buildItem cfg e).isOk = false →
    (build_items_loop cfg l).isOk = false := by
  intro l
  induction l with
  | nil => intro e he; exact absurd he (List.not_mem_nil e)
  | cons f rest ih =>
    intro e he hk hfail
    simp only [build_items_loop]
    rcases List.mem_cons.mp he with h1 | h1
    · subst h1
      rw [if_pos hk]
      cases hbe : buildItem cfg e with
      | error er => rfl
      | ok it1 => rw [hbe] at hfail; exact Bool.noConfusion hfail
    · by_cases hkf : keepEntry f = true
      · rw [if_pos hkf]
        cases hbe : buildItem cfg f with
        | error er => rfl
        | ok it1 =>
          cases hbr : build_items_loop cfg rest with
          | error er => rfl
          | ok its =>
            have hrec := ih e h1 hk hfail
            rw [hbr] at hrec
            exact Bool.noConfusion hrec
      · rw [if_neg hkf]
        exact ih e h1 hk hfail

/-! ## Claims about the parsers -/

/-- C1: the claim says a PNG-extension file with a valid 8-byte
signature but fewer than 24 bytes in total must fail with a
truncation error and never yield a zero dimension.  The code has no
length check: on this 20-byte file (signature, a plausible IHDR chunk
header, and the 4 width bytes `00 00 00 05`) `header[20:24]` is empty,
`int.from_bytes(b'', 'big')` is `0`, and the parser successfully
returns `(5, 0)` — a partial result with a zero height, contradicting
the claim.  The spec's own invariants (never default dimensions to
zero; exactly 24 bytes required) identify the missing check as a code
bug. -/
theorem c1_png_truncated_returns_zero_height :
    read_image_size "photo.png"
      [0x89, 0x50, 0x4E, 0x47, 0x0D, 0x0A, 0x1A, 0x0A,
       0x00, 0x00, 0x00, 0x0D, 0x49, 0x48, 0x44, 0x52,
       0x00, 0x00, 0x00, 0x05] = .ok (5, 0) := by rfl

/-- C4: the claim says the `VP8 ` parser masks off the top 2 bits of
each little-endian 16-bit half, keeping 14-bit width and height.  The
code (lines 192-193) computes `chunk_data[6] | (chunk_data[7] << 8)`
with no `& 0x3FFF` mask: on this file, whose `VP8 ` payload bytes 6-9
are `05 40 03 40`, it returns `(0x4005, 0x4003) = (16389, 16387)`
instead of the masked `(5, 3)` that the claim (and the WebP format)
prescribe.  The spec states the mask "must be" applied, so the missing
mask is a code bug. -/
theorem c4_vp8_lossy_not_masked :
    read_image_size "photo.webp"
      [0x52, 0x49, 0x46, 0x46, 0x16, 0x00, 0x00, 0x00,
       0x57, 0x45, 0x42, 0x50,
       0x56, 0x50, 0x38, 0x20, 0x0A, 0x00, 0x00, 0x00,
       0x00, 0x00, 0x00, 0x00, 0x00, 0x00, 0x05, 0x40, 0x03, 0x40]
      = .ok (16389, 16387) := by rfl

/-- C5 counterexample: the claim says a chunk whose declared size plus
padding exceeds the remaining stream is a read-bounds
(`MalformedSegment`-kind) failure.  The code performs no such bounds
check: this file's single `VP8L` chunk declares 100 payload bytes while
only 5 remain; the short read still satisfies the `>= 5` guard and the
parser happily returns `(2, 1)` instead of any error. -/
theorem c5_oversized_chunk_counterexample :
    read_image_size "photo.webp"
      [0x52, 0x49, 0x46, 0x46, 0x00, 0x00, 0x00, 0x00,
       0x57, 0x45, 0x42, 0x50,
       0x56, 0x50, 0x38, 0x4C, 0x64, 0x00, 0x00, 0x00,
       0x01, 0x00, 0x00, 0x00, 0x00] = .ok (2, 1) := by rfl

/-- C5 (amended): the WebP chunk scanner has no read-bounds error at
all.  A chunk whose declared size plus padding exceeds the remaining
stream is simply read short (like Python's `fp.read`); if the truncated
payload still meets the recognized tag's length guard the parser
returns dimensions, and otherwise scanning runs off the end of the
stream and fails with the single generic `ValueError('Could not
determine WebP dimensions')` — the only failure the chunk loop can
produce. -/
theorem c5_webp_only_failure_is_dims_not_found (data : List Nat) (e : ImgError)
    (h : webpScan data = .error e) : e = ImgError.webpDimsNotFound :=
  webpRun_error data.length data e h

/-- Witness for C5 (amended) at a concrete input: a one-byte chunk
stream fails, and by the theorem its error is the generic one. -/
theorem c5_webp_only_failure_witness :
    webpScan [0x00] = .error ImgError.webpDimsNotFound
    ∧ ImgError.webpDimsNotFound = ImgError.webpDimsNotFound :=
  ⟨rfl, c5_webp_only_failure_is_dims_not_found [0x00] ImgError.webpDimsNotFound (by rfl)⟩

/-- C6: whenever the JPEG scanner has just consumed a `0xFF` and reads
a start-of-frame marker code whose full segment is available, it reads
the 2-byte big-endian length `l1 l2`, skips the precision byte `prec`,
reads height `hb1 hb2` then width `wb1 wb2` (big-endian,
height-then-width on the wire) and returns `(width, height)`. -/
theorem c6_jpeg_sof_height_then_width (m l1 l2 prec hb1 hb2 wb1 wb2 : Nat)
    (tail : List Nat) (hm : JPEG_START_OF_FRAME_MARKERS.contains m = true) :
    jpegAfterFF (m :: l1 :: l2 :: prec :: hb1 :: hb2 :: wb1 :: wb2 :: tail)
      = .ok (beVal [wb1, wb2], beVal [hb1, hb2]) := by
  have hmem : m ∈ JPEG_START_OF_FRAME_MARKERS := List.mem_of_elem_eq_true hm
  fin_cases hmem <;> rfl

/-- Witness for C6: a baseline `0xC0` frame with height 100 and width
200 returns `(200, 100)`. -/
theorem c6_jpeg_sof_witness :
    jpegAfterFF [0xC0, 0x00, 0x11, 0x08, 0x00, 0x64, 0x00, 0xC8] = .ok (200, 100) :=
  c6_jpeg_sof_height_then_width 0xC0 0x00 0x11 0x08 0x00 0x64 0x00 0xC8 [] (by rfl)

/-- C7: with the optional Pillow collaborator entirely absent
(`Image = None`), `get_image_dimensions` is exactly the manual parser
`read_image_size` on every path: the system degrades to the manual
parsers alone. -/
theorem c7_resolver_equals_manual_without_pillow (name : String) (data : List Nat) :
    get_image_dimensions none name data = read_image_size name data := rfl

/-- C10: when the stream ends inside a start-of-frame segment with the
2-byte length present but fewer than 5 further bytes, the parser still
returns a dimension pair instead of raising: the reads come back short
or empty and `int.from_bytes` of an empty read is 0, so a width whose
bytes are entirely missing is 0 (fewer than 4 of the 5 bytes left) and
likewise a height whose bytes are entirely missing (fewer than 2
left). -/
theorem c10_jpeg_truncated_sof_returns_pair (m l1 l2 : Nat) (rest : List Nat)
    (hm : JPEG_START_OF_FRAME_MARKERS.contains m = true) (_hlen : rest.length < 5) :
    ∃ wh : Nat × Nat,
      jpegAfterFF (m :: l1 :: l2 :: rest) = .ok wh
      ∧ (rest.length ≤ 3 → wh.1 = 0)
      ∧ (rest.length ≤ 1 → wh.2 = 0) := by
  refine ⟨(beVal ((rest.drop 3).take 2), beVal ((rest.drop 1).take 2)), ?_, ?_, ?_⟩
  · have hmem : m ∈ JPEG_START_OF_FRAME_MARKERS := List.mem_of_elem_eq_true hm
    fin_cases hmem <;> rfl
  · intro hle
    rw [List.drop_eq_nil_of_le hle]
    rfl
  · intro hle
    rw [List.drop_eq_nil_of_le hle]
    rfl

/-- Witness for C10: a progressive `0xC2` frame whose stream ends right
after the segment length yields `(0, 0)` without an error. -/
theorem c10_jpeg_truncated_sof_witness :
    ∃ wh : Nat × Nat,
      jpegAfterFF [0xC2, 0x00, 0x04] = .ok wh
      ∧ (([] : List Nat).length ≤ 3 → wh.1 = 0)
      ∧ (([] : List Nat).length ≤ 1 → wh.2 = 0) :=
  c10_jpeg_truncated_sof_returns_pair 0xC2 0x00 0x04 [] (by rfl) (by decide)

/-! ## Key-presence lemmas for the serialized dict -/

theorem hasKey_to_dict (it : GalleryItem) :
    dictHasKey (to_dict it) "w" = true
    ∧ dictHasKey (to_dict it) "h" = true
    ∧ dictHasKey (to_dict it) "thumb" = truthyStr it.thumb
    ∧ dictHasKey (to_dict it) "thumbWidth" = (truthyNat it.thumbWidth && truthyNat it.thumbHeight)
    ∧ dictHasKey (to_dict it) "thumbHeight" = (truthyNat it.thumbWidth && truthyNat it.thumbHeight)
    ∧ dictHasKey (to_dict it) "caption" = truthyStr it.caption := by
  unfold to_dict dictHasKey
  cases h1 : truthyStr it.thumb <;>
    cases h2 : truthyNat it.thumbWidth && truthyNat it.thumbHeight <;>
      cases h3 : truthyStr it.caption <;>
        simp +decide [h1, h2, h3, List.any_append]

theorem caption_mem_to_dict (it : GalleryItem) (h : truthyStr it.caption = true) :
    ("caption", JsonValue.str (it.caption.getD "")) ∈ to_dict it := by
  simp [to_dict, h]

/-! ## Claims about the manifest builder -/

/-- C2 counterexample: a single 20-byte truncated PNG (parsed as
`(7, 0)`, so `h = 0` is not positive yet the item is included) together
with an unreadable pre-existing `thumbs/a.png` file produces a manifest
item whose serialized dict has a `thumb` key but neither `thumbWidth`
nor `thumbHeight`, refuting both halves of the claimed invariant. -/
theorem c2_thumb_without_dims_counterexample :
    build_gallery_items cfgStaleThumb [⟨"a.png", pngBytesTruncated20, true⟩]
      = .ok [itemTruncatedPng]
    ∧ itemTruncatedPng.h = 0
    ∧ dictHasKey (to_dict itemTruncatedPng) "thumb" = true
    ∧ dictHasKey (to_dict itemTruncatedPng) "thumbWidth" = false
    ∧ dictHasKey (to_dict itemTruncatedPng) "thumbHeight" = false :=
  ⟨rfl, rfl, rfl, rfl, rfl⟩

/-- C2 (amended): in every serialized manifest item the `w` and `h`
keys are always present (with whatever values the resolver produced,
not necessarily positive), `thumbWidth` and `thumbHeight` are present
together or absent together, and whenever they are present `thumb` is
present too.  `thumb` may however be present without the dimension
fields (when an existing thumbnail's dimensions cannot be resolved,
lines 252-257). -/
theorem c2_thumb_field_pairing_amended (cfg : Config) (entries : List DirEntry)
    (items : List GalleryItem) (it : GalleryItem)
    (hb : build_gallery_items cfg entries = .ok items) (hit : it ∈ items) :
    dictHasKey (to_dict it) "w" = true
    ∧ dictHasKey (to_dict it) "h" = true
    ∧ dictHasKey (to_dict it) "thumbWidth" = dictHasKey (to_dict it) "thumbHeight"
    ∧ (dictHasKey (to_dict it) "thumbWidth" = true → dictHasKey (to_dict it) "thumb" = true) := by
  obtain ⟨e, he⟩ := loop_mem cfg _ items hb it hit
  obtain ⟨hw, hh, hthumb, htw, hth, _⟩ := hasKey_to_dict it
  refine ⟨hw, hh, by rw [htw, hth], ?_⟩
  rw [htw, hthumb]
  intro hcond
  obtain ⟨_, _, _, htrip⟩ := buildItem_ok cfg e it he
  rcases resolveThumb_shape cfg e with hs | ⟨tw, th, hs⟩ | hs <;>
    rw [hs] at htrip <;> simp only [Prod.mk.injEq] at htrip
  · rw [htrip.2.1] at hcond
    simp [truthyNat] at hcond
  · rw [htrip.1]
    simp [truthyStr, thumb_rel_ne_empty]
  · rw [htrip.2.1] at hcond
    simp [truthyNat] at hcond

/-- Witness for C2 (amended): a valid 24-byte PNG with no thumbnail
state at all. -/
theorem c2_thumb_field_pairing_witness :
    dictHasKey (to_dict itemBPng) "w" = true
    ∧ dictHasKey (to_dict itemBPng) "h" = true
    ∧ dictHasKey (to_dict itemBPng) "thumbWidth"
      = dictHasKey (to_dict itemBPng) "thumbHeight"
    ∧ (dictHasKey (to_dict itemBPng) "thumbWidth" = true
      → dictHasKey (to_dict itemBPng) "thumb" = true) :=
  c2_thumb_field_pairing_amended cfgNoPillow
    [⟨"b.png", pngBytes100x50, true⟩]
    _ _ (by rfl) (List.mem_singleton_self _)

/-- C3 counterexample: the claim says one file's dimension failure must
not abort the rest and every other resolvable file still appears in the
output.  With `a_bad.jpg` (three junk bytes: `read_image_size` raises
`ValueError('Not a JPEG file')`) and a perfectly resolvable
`b_good.png` (100 by 50), the build has no per-file exception handling
and aborts with the error: no manifest is produced at all, so
`b_good.png` appears nowhere. -/
theorem c3_one_failure_aborts_build_counterexample :
    build_gallery_items cfgNoPillow
      [⟨"a_bad.jpg", [0x00, 0x01, 0x02], true⟩,
       ⟨"b_good.png", pngBytes100x50, true⟩]
      = .error ImgError.notJpeg
    ∧ read_image_size "b_good.png" pngBytes100x50 = .ok (100, 50) :=
  ⟨rfl, rfl⟩

/-- C3 (amended): failures are not isolated.  If dimension resolution
fails for any kept candidate file, the exception propagates out of
`build_gallery_items`: the whole build fails and no manifest (not even
one containing the other, resolvable files) is returned. -/
theorem c3_failure_aborts_build_amended (cfg : Config) (entries : List DirEntry)
    (e : DirEntry) (he : e ∈ entries) (hk : keepEntry e = true)
    (hfail : (get_image_dimensions cfg.image e.name e.content).isOk = false) :
    (build_gallery_items cfg entries).isOk = false := by
  have hmem : e ∈ entries.insertionSort entryLe :=
    (List.perm_insertionSort entryLe entries).symm.subset he
  apply loop_err cfg _ e hmem hk
  unfold buildItem
  cases hg : get_image_dimensions cfg.image e.name e.content with
  | error er => rfl
  | ok wh => rw [hg] at hfail; exact Bool.noConfusion hfail

/-- Witness for C3 (amended) at the concrete two-file directory of the
counterexample. -/
theorem c3_failure_aborts_build_witness :
    (build_gallery_items cfgNoPillow
      [⟨"a_bad.jpg", [0x00, 0x01, 0x02], true⟩,
       ⟨"b_good.png", pngBytes100x50, true⟩]).isOk = false :=
  c3_failure_aborts_build_amended _ _
    ⟨"a_bad.jpg", [0x00, 0x01, 0x02], true⟩
    (List.mem_cons_self _ _) (by rfl) (by rfl)

/-- C8: the manifest's item sequence is exactly the lexicographically
sorted, filtered directory listing, in that order with no other
sorting: the `src` values are the sorted kept names prefixed with
`photos/`, and that kept sequence is pairwise ordered by the
lexicographic name order used for the sort. -/
theorem c8_manifest_order (cfg : Config) (entries : List DirEntry)
    (items : List GalleryItem) (hb : build_gallery_items cfg entries = .ok items) :
    items.map GalleryItem.src
      = ((entries.insertionSort entryLe).filter keepEntry).map (fun e => "photos/" ++ e.name)
    ∧ List.Pairwise entryLe ((entries.insertionSort entryLe).filter keepEntry) := by
  refine ⟨loop_srcs cfg _ items hb, ?_⟩
  haveI : IsTotal DirEntry entryLe := ⟨fun a b => chLe_total a.name.data b.name.data⟩
  haveI : IsTrans DirEntry entryLe := ⟨fun _ _ _ hab hbc => chLe_trans _ _ _ hab hbc⟩
  exact List.Pairwise.sublist (List.filter_sublist _) (List.sorted_insertionSort entryLe entries)

/-- Witness for C8: the spec's own example, a directory listed as
`b.png` (100 by 50) then `a.jpg` (200 by 100), yields the manifest
order `photos/a.jpg`, `photos/b.png`. -/
theorem c8_manifest_order_witness :
    [itemAJpg, itemBPng].map GalleryItem.src
      = ((([⟨"b.png", pngBytes100x50, true⟩, ⟨"a.jpg", jpegBytes200x100, true⟩]
            : List DirEntry).insertionSort entryLe).filter keepEntry).map
          (fun e => "photos/" ++ e.name)
    ∧ List.Pairwise entryLe
        ((([⟨"b.png", pngBytes100x50, true⟩, ⟨"a.jpg", jpegBytes200x100, true⟩]
            : List DirEntry).insertionSort entryLe).filter keepEntry) :=
  c8_manifest_order cfgNoPillow _ _ (by rfl)

/-- C9: every item produced by the manifest builder has `caption` set
and equal to the alt text, so whenever the alt text is non-empty the
serialized dict carries a `caption` key whose value is exactly the alt
text; `caption` is never independently absent or different. -/
theorem c9_caption_always_equals_alt (cfg : Config) (entries : List DirEntry)
    (items : List GalleryItem) (it : GalleryItem)
    (hb : build_gallery_items cfg entries = .ok items) (hit : it ∈ items) :
    it.caption = some it.alt
    ∧ (it.alt ≠ "" → ("caption", JsonValue.str it.alt) ∈ to_dict it) := by
  obtain ⟨e, he⟩ := loop_mem cfg _ items hb it hit
  obtain ⟨_, _, hcap, _⟩ := buildItem_ok cfg e it he
  refine ⟨hcap, fun hne => ?_⟩
  have ht : truthyStr it.caption = true := by
    rw [hcap]
    simp [truthyStr, hne]
  have hmem := caption_mem_to_dict it ht
  rw [hcap] at hmem
  exact hmem

/-- Witness for C9: `sunset_bay.png` yields alt and caption
`sunset bay`, and the serialized dict carries that caption. -/
theorem c9_caption_witness :
    itemSunsetBay.caption = some itemSunsetBay.alt
    ∧ (itemSunsetBay.alt ≠ "" →
      ("caption", JsonValue.str itemSunsetBay.alt) ∈ to_dict itemSunsetBay) :=
  c9_caption_always_equals_alt cfgNoPillow
    [⟨"sunset_bay.png", pngBytes100x50, true⟩]
    _ _ (by rfl) (List.mem_singleton_self _)

end BuildGallery
